import Mathlib

/-!
Verification of the PhytoScan leaf-disease diagnosis core.

The repository consists of a React UI (`src/App.tsx`), shared type
declarations (`src/unnamed/part_000`, the `types` module), and two helper
modules (`imageProcessor`, `constants`, `geminiService`) that App.tsx
imports but whose sources are not part of the repository snapshot.

We shallowly embed:
  * the SeverityScorer (`score` / App.tsx's `calculateSeverity` import) and
    the QualityAnalyzer (`assess` / App.tsx's `analyzeImageQuality` import),
    modelled from the spec because `imageProcessor` is not in the snapshot;
  * the result-assembly portion of `runAnalysis` and the history update
    `saveToHistory` from `src/App.tsx`, translated from the source.

TypeScript numbers are modelled as `Int` (integer counts) and `Rat`
(fractional quantities); until-now-external effects (the AI call, the
clock, `crypto.randomUUID`, `localStorage`) are passed in as parameters.
-/

namespace PhytoScan

/-- The closed stage vocabulary, exactly the string union
`'H0' | 'E1' | 'E2' | 'E3' | 'N0'` of `DiseaseStage` in the types module.
In TypeScript a stage is a plain string (App.tsx casts the classifier's
string with `as DiseaseStage`), so stages are embedded as `String` and this
list is the closed enumeration. -/
def stageValues : List String := ["H0", "E1", "E2", "E3", "N0"]

/-- Error raised by the SeverityScorer for out-of-range inputs
(spec section 4.2 / 7). -/
inductive ScoreError where
  | InvalidInput
  deriving DecidableEq, Repr

/-- Modelled from the spec: the proportional in-band scaling used by the
SeverityScorer for stages E1/E2/E3 (`imageProcessor` is not in the
snapshot).  A stage occupies the band `[lo, hi]`; the score starts at the
band floor and is scaled upward proportionally to `lesionCount` and
`avgLesionSize`, each clipped at the stage-specific reference maxima
`cmax` / `smax` so the result never crosses the band ceiling. -/
def bandScore (lo hi : ℤ) (cmax smax : ℚ) (lesionCount : ℤ) (avgLesionSize : ℚ) : ℤ :=
  lo + ⌊((hi : ℚ) - (lo : ℚ)) *
    (min (lesionCount : ℚ) cmax / cmax + min avgLesionSize smax / smax) / 2⌋

/-- Modelled from the spec: the SeverityScorer contract
`score(stage, lesionCount, avgLesionSize) -> int` (App.tsx imports it as
`calculateSeverity` from `imageProcessor`, which is not in the snapshot).
Validation first: negative lesion inputs or a stage outside the closed
enumeration fail with `InvalidInput` (spec sections 4.2, 6, 7: the scorer's
numeric domain is the non-negative numbers, and errors are surfaced, never
clamped).  `H0`/`N0` score 0; `E1`/`E2`/`E3` occupy the bands 1-25, 26-60
and 61-100 with stage-specific reference maxima. -/
def score (stage : String) (lesionCount : ℤ) (avgLesionSize : ℚ) : Except ScoreError ℤ :=
  if lesionCount < 0 ∨ avgLesionSize < 0 then .error .InvalidInput
  else if stage = "H0" ∨ stage = "N0" then .ok 0
  else if stage = "E1" then .ok (bandScore 1 25 10 5 lesionCount avgLesionSize)
  else if stage = "E2" then .ok (bandScore 26 60 30 10 lesionCount avgLesionSize)
  else if stage = "E3" then .ok (bandScore 61 100 50 20 lesionCount avgLesionSize)
  else .error .InvalidInput

/-- The scaled fraction inside `bandScore` stays non-negative. -/
theorem bandFraction_nonneg {cmax smax : ℚ} (hc : 0 < cmax) (hs : 0 < smax)
    {c : ℤ} {s : ℚ} (h0c : 0 ≤ c) (h0s : 0 ≤ s) :
    0 ≤ min (c : ℚ) cmax / cmax + min s smax / smax := by
  have h1 : 0 ≤ min (c : ℚ) cmax / cmax := by
    apply div_nonneg _ hc.le
    exact le_min (by exact_mod_cast h0c) hc.le
  have h2 : 0 ≤ min s smax / smax := by
    apply div_nonneg _ hs.le
    exact le_min h0s hs.le
  linarith

/-- The scaled fraction inside `bandScore` never exceeds 2. -/
theorem bandFraction_le_two {cmax smax : ℚ} (hc : 0 < cmax) (hs : 0 < smax)
    (c : ℤ) (s : ℚ) :
    min (c : ℚ) cmax / cmax + min s smax / smax ≤ 2 := by
  have h1 : min (c : ℚ) cmax / cmax ≤ 1 := by
    rw [div_le_one hc]
    exact min_le_right _ _
  have h2 : min s smax / smax ≤ 1 := by
    rw [div_le_one hs]
    exact min_le_right _ _
  linarith

/-- A band score never falls below the band floor (for valid inputs). -/
theorem bandScore_lower {lo hi : ℤ} {cmax smax : ℚ} (hc : 0 < cmax) (hs : 0 < smax)
    (hb : lo ≤ hi) {c : ℤ} {s : ℚ} (h0c : 0 ≤ c) (h0s : 0 ≤ s) :
    lo ≤ bandScore lo hi cmax smax c s := by
  unfold bandScore
  have hfloor : (0 : ℤ) ≤ ⌊((hi : ℚ) - (lo : ℚ)) *
      (min (c : ℚ) cmax / cmax + min s smax / smax) / 2⌋ := by
    rw [Int.le_floor]
    push_cast
    have hhl : (0 : ℚ) ≤ (hi : ℚ) - (lo : ℚ) := by
      have : (lo : ℚ) ≤ (hi : ℚ) := by exact_mod_cast hb
      linarith
    have := bandFraction_nonneg hc hs h0c h0s
    positivity
  omega

/-- A band score never exceeds the band ceiling. -/
theorem bandScore_upper {lo hi : ℤ} {cmax smax : ℚ} (hc : 0 < cmax) (hs : 0 < smax)
    (hb : lo ≤ hi) (c : ℤ) (s : ℚ) :
    bandScore lo hi cmax smax c s ≤ hi := by
  unfold bandScore
  have hhl : (0 : ℚ) ≤ (hi : ℚ) - (lo : ℚ) := by
    have : (lo : ℚ) ≤ (hi : ℚ) := by exact_mod_cast hb
    linarith
  have hmain : ((hi : ℚ) - (lo : ℚ)) *
      (min (c : ℚ) cmax / cmax + min s smax / smax) / 2 ≤ ((hi - lo : ℤ) : ℚ) := by
    have hf := bandFraction_le_two hc hs c s
    push_cast
    nlinarith
  have hfloor : ⌊((hi : ℚ) - (lo : ℚ)) *
      (min (c : ℚ) cmax / cmax + min s smax / smax) / 2⌋ ≤ hi - lo := by
    have := Int.floor_le_floor hmain
    simpa using this
  omega

/-- Band scores are monotone in both lesion inputs. -/
theorem bandScore_mono {lo hi : ℤ} {cmax smax : ℚ} (hc : 0 < cmax) (hs : 0 < smax)
    (hb : lo ≤ hi) {c1 c2 : ℤ} {s1 s2 : ℚ} (hcc : c1 ≤ c2) (hss : s1 ≤ s2) :
    bandScore lo hi cmax smax c1 s1 ≤ bandScore lo hi cmax smax c2 s2 := by
  unfold bandScore
  have hhl : (0 : ℚ) ≤ (hi : ℚ) - (lo : ℚ) := by
    have : (lo : ℚ) ≤ (hi : ℚ) := by exact_mod_cast hb
    linarith
  have hfrac : min (c1 : ℚ) cmax / cmax + min s1 smax / smax ≤
      min (c2 : ℚ) cmax / cmax + min s2 smax / smax := by
    have h1 : min (c1 : ℚ) cmax ≤ min (c2 : ℚ) cmax :=
      min_le_min (by exact_mod_cast hcc) le_rfl
    have h2 : min s1 smax ≤ min s2 smax := min_le_min hss le_rfl
    have h1d : min (c1 : ℚ) cmax / cmax ≤ min (c2 : ℚ) cmax / cmax :=
      (div_le_div_iff_of_pos_right hc).mpr h1
    have h2d : min s1 smax / smax ≤ min s2 smax / smax :=
      (div_le_div_iff_of_pos_right hs).mpr h2
    linarith
  have hstep : ((hi : ℚ) - (lo : ℚ)) *
      (min (c1 : ℚ) cmax / cmax + min s1 smax / smax) / 2 ≤
      ((hi : ℚ) - (lo : ℚ)) *
      (min (c2 : ℚ) cmax / cmax + min s2 smax / smax) / 2 := by
    have := mul_le_mul_of_nonneg_left hfrac hhl
    linarith
  exact add_le_add_left (Int.floor_le_floor hstep) lo

/-- A decoded raster image as the QualityAnalyzer receives it (spec
section 4.1): known width and height and a flat channel buffer of byte
values (RGB: 3 channels, RGBA: 4). -/
structure RasterImage where
  width : Nat
  height : Nat
  channels : Nat
  pixels : List Nat
  deriving DecidableEq, Repr

/-- The `ImageQuality` value record, exactly the fields of the interface in
the types module (`resolution: \x7b width, height \x7d` becomes a pair). -/
structure ImageQuality where
  avgBrightness : ℚ
  isTooDark : Bool
  isTooBright : Bool
  hasShadows : Bool
  hasOverexposure : Bool
  resolution : Nat × Nat
  isLowRes : Bool
  deriving DecidableEq, Repr

/-- Error raised by the QualityAnalyzer for a malformed pixel buffer
(spec sections 4.1, 7). -/
inductive QualityError where
  | InvalidImage
  deriving DecidableEq, Repr

/-- Modelled from the spec: minimum usable width in pixels ("a few hundred
pixels per side", a named tunable constant). -/
def W_MIN : Nat := 300

/-- Modelled from the spec: minimum usable height in pixels. -/
def H_MIN : Nat := 300

/-- Modelled from the spec: average-luma cutoff below which the image is
too dark (roughly the lower quintile of 0-255). -/
def DARK_THRESHOLD : ℚ := 50

/-- Modelled from the spec: average-luma cutoff above which the image is
too bright (roughly the upper quintile of 0-255). -/
def BRIGHT_THRESHOLD : ℚ := 200

/-- Modelled from the spec: per-pixel luma above which a pixel counts as
near-white for overexposure detection. -/
def NEAR_WHITE_THRESHOLD : ℚ := 240

/-- Modelled from the spec: minimum proportion of near-white pixels that
signals blown-out highlights (15 percent). -/
def OVEREXPOSURE_FRACTION : ℚ := 3 / 20

/-- Modelled from the spec: spread between the brightest and darkest
region means above which illumination counts as uneven. -/
def SHADOW_SPREAD_THRESHOLD : ℚ := 60

/-- Standard perceptual luma weighting of the three colour channels
(spec section 4.1 step 2). -/
def luma (r g b : Nat) : ℚ := (299 * r + 587 * g + 114 * b : ℚ) / 1000

/-- Luma of pixel `i` (row-major) of the flat channel buffer; only the
first three channels contribute (an RGBA alpha channel is ignored). -/
def pixelLuma (img : RasterImage) (i : Nat) : ℚ :=
  luma (img.pixels.getD (i * img.channels) 0)
    (img.pixels.getD (i * img.channels + 1) 0)
    (img.pixels.getD (i * img.channels + 2) 0)

/-- Lumas of every pixel of the image, in row-major order (the spec allows
sampling every pixel; no subsampling is modelled). -/
def lumas (img : RasterImage) : List ℚ :=
  (List.range (img.width * img.height)).map (pixelLuma img)

/-- Arithmetic mean of a list of rationals (0 for the empty list, since
division by zero is 0). -/
def mean (xs : List ℚ) : ℚ := xs.sum / (xs.length : ℚ)

/-- Whether row-major pixel index `i` falls in the quadrant selected by
`qx` (true = left half) and `qy` (true = top half). -/
def inQuadrant (img : RasterImage) (qx qy : Bool) (i : Nat) : Bool :=
  (decide (2 * (i % img.width) < img.width) == qx) &&
    (decide (2 * (i / img.width) < img.height) == qy)

/-- Lumas of the pixels of one quadrant of the fixed 2 by 2 region grid
(spec section 4.1 step 4). -/
def quadrantLumas (img : RasterImage) (qx qy : Bool) : List ℚ :=
  ((List.range (img.width * img.height)).filter (inQuadrant img qx qy)).map
    (pixelLuma img)

/-- Mean luma of each non-empty quadrant of the 2 by 2 region grid. -/
def quadrantMeans (img : RasterImage) : List ℚ :=
  ([quadrantLumas img true true, quadrantLumas img false true,
      quadrantLumas img true false, quadrantLumas img false false].filter
    (fun q => !q.isEmpty)).map mean

/-- Spread of a list of rationals: maximum minus minimum (0 when empty). -/
def spread (xs : List ℚ) : ℚ :=
  xs.foldl max (xs.headD 0) - xs.foldl min (xs.headD 0)

/-- Fraction of sampled pixels whose luma exceeds the near-white
threshold (spec section 4.1 step 5). -/
def overexposedFraction (img : RasterImage) : ℚ :=
  (((lumas img).countP (fun l => decide (NEAR_WHITE_THRESHOLD < l)) : ℚ)) /
    ((img.width * img.height : Nat) : ℚ)

/-- Modelled from the spec: the quality report assembled for a
structurally valid image, following the five algorithm steps of spec
section 4.1. -/
def mkQuality (img : RasterImage) : ImageQuality :=
  let avg := mean (lumas img)
  { avgBrightness := avg
    isTooDark := decide (avg < DARK_THRESHOLD)
    isTooBright := decide (BRIGHT_THRESHOLD < avg)
    hasShadows := decide (SHADOW_SPREAD_THRESHOLD < spread (quadrantMeans img))
    hasOverexposure := decide (OVEREXPOSURE_FRACTION < overexposedFraction img)
    resolution := (img.width, img.height)
    isLowRes := decide (img.width < W_MIN ∨ img.height < H_MIN) }

/-- Structural validity of a raster image: non-zero dimensions and a pixel
buffer whose length matches width times height times channel count. -/
def structurallyValid (img : RasterImage) : Prop :=
  img.width ≠ 0 ∧ img.height ≠ 0 ∧
    img.pixels.length = img.width * img.height * img.channels

instance (img : RasterImage) : Decidable (structurallyValid img) := by
  unfold structurallyValid
  infer_instance

/-- Modelled from the spec: the QualityAnalyzer contract
`assess(image) -> ImageQuality` (App.tsx imports it as
`analyzeImageQuality` from `imageProcessor`, which is not in the
snapshot).  Fails with `InvalidImage` exactly on a malformed buffer;
otherwise reports quality, however poor. -/
def assess (img : RasterImage) : Except QualityError ImageQuality :=
  if img.width = 0 ∨ img.height = 0 ∨
      img.pixels.length ≠ img.width * img.height * img.channels then
    .error .InvalidImage
  else
    .ok (mkQuality img)

/-- Disease knowledge-base entry (`DiseaseInfo` in the types module),
restricted to the data fields the embedded workflow reads; the
presentation-only fields (colours, icon, treatment text, ...) are
omitted.  The `DISEASE_DATABASE` table itself lives in the `constants`
module, which is not in the snapshot, so lookups are a parameter. -/
structure DiseaseInfo where
  name : String
  severity : Nat
  description : String
  deriving DecidableEq, Repr

/-- Output shape of the external classifier call `analyzePlantImage`
(spec section 1: `classify(image) -> \x7bstage, confidence, lesionCount,
avgLesionSize, explanation, symptoms, evidenceRegions\x7d`).  `stage` is a
raw string: App.tsx merely casts it with `as DiseaseStage`.  The two
fields App.tsx guards with `|| []` / `|| ""` are optional. -/
structure AIResult where
  stage : String
  confidence : ℚ
  lesionCount : ℤ
  avgLesionSize : ℚ
  explanation : String
  detectedSymptoms : Option (List String)
  visualEvidenceRegions : Option String
  deriving DecidableEq, Repr

/-- The `qualityIssues` payload of `AnalysisResult` (types module): the
four flag fields App.tsx fills in when any quality flag is raised. -/
structure QualityIssues where
  tooDark : Bool
  shadows : Bool
  lowRes : Bool
  overexposed : Bool
  deriving DecidableEq, Repr

/-- The `AnalysisResult` record of the types module (the `disease` field
restricted like `DiseaseInfo` above). -/
structure AnalysisResult where
  stage : String
  confidence : ℚ
  disease : DiseaseInfo
  lesionCount : ℤ
  avgLesionSize : ℚ
  severityScore : String
  timestamp : String
  qualityIssues : Option QualityIssues
  aiExplanation : String
  detectedSymptoms : List String
  visualEvidenceRegions : String
  deriving DecidableEq, Repr

/-- The `calculateSeverity` function App.tsx imports from
`imageProcessor`: the SeverityScorer `score`, rendered as the
integer-valued string stored in `AnalysisResult.severityScore`
(`severityScore: string` in the types module; spec section 3 calls it an
integer-valued string). -/
def calculateSeverity (stage : String) (lesionCount : ℤ) (avgLesionSize : ℚ) :
    Except ScoreError String :=
  (score stage lesionCount avgLesionSize).map toString

/-- Result assembly of `runAnalysis` (src/App.tsx, lines 117-160),
translated from the source.  The external effects are parameters: the
knowledge-base lookup `db` (`DISEASE_DATABASE[stage]`), the quality
report (`await analyzeImageQuality(...)`), the classifier output
(`await analyzePlantImage(...)`) and the timestamp
(`new Date().toLocaleString()`).  A thrown `calculateSeverity` lands in
the surrounding `catch`, so no result record is produced (`none`). -/
def runAnalysis (db : String → DiseaseInfo) (quality : ImageQuality)
    (aiResult : AIResult) (timestamp : String) : Option AnalysisResult :=
  match calculateSeverity aiResult.stage aiResult.lesionCount aiResult.avgLesionSize with
  | .error _ => none
  | .ok severityScore =>
    some
      { stage := aiResult.stage
        confidence := aiResult.confidence
        disease := db aiResult.stage
        lesionCount :=
          if aiResult.stage = "N0" ∨ aiResult.stage = "H0" then 0
          else aiResult.lesionCount
        avgLesionSize :=
          if aiResult.stage = "N0" ∨ aiResult.stage = "H0" then 0
          else aiResult.avgLesionSize
        severityScore := severityScore
        timestamp := timestamp
        qualityIssues :=
          if quality.isTooDark || quality.hasShadows || quality.isLowRes ||
              quality.hasOverexposure then
            some
              { tooDark := quality.isTooDark
                shadows := quality.hasShadows
                lowRes := quality.isLowRes
                overexposed := quality.hasOverexposure }
          else none
        aiExplanation := aiResult.explanation
        detectedSymptoms := aiResult.detectedSymptoms.getD []
        visualEvidenceRegions := aiResult.visualEvidenceRegions.getD "" }

/-- The `HistoryItem` record of the types module. -/
structure HistoryItem where
  id : String
  timestamp : String
  stage : String
  diseaseName : String
  confidence : ℚ
  severityScore : String
  thumbnail : Option String
  deriving DecidableEq, Repr

/-- The `newItem` record built at the top of `saveToHistory`
(src/App.tsx, lines 72-80); `crypto.randomUUID()` is the parameter `id`,
and the optional `thumbnail` is left unset. -/
def mkHistoryItem (id : String) (res : AnalysisResult) : HistoryItem :=
  { id := id
    timestamp := res.timestamp
    stage := res.stage
    diseaseName := res.disease.name
    confidence := res.confidence
    severityScore := res.severityScore
    thumbnail := none }

/-- The history update of `saveToHistory` (src/App.tsx, lines 72-85):
`[newItem, ...history].slice(0, 50)`.  The `setHistory` /
`localStorage.setItem` effects store exactly the returned list. -/
def saveToHistory (id : String) (res : AnalysisResult)
    (history : List HistoryItem) : List HistoryItem :=
  (mkHistoryItem id res :: history).take 50

/-- A database function standing in for `DISEASE_DATABASE` in concrete
instantiations. -/
def dbTest : String → DiseaseInfo := fun st => ⟨"disease " ++ st, 0, "entry"⟩

/-- A concrete quality report with one raised flag. -/
def qTest : ImageQuality :=
  { avgBrightness := 128
    isTooDark := false
    isTooBright := false
    hasShadows := true
    hasOverexposure := false
    resolution := (640, 480)
    isLowRes := false }

/-- A concrete classifier output: stage `H0` but non-zero lesion metrics. -/
def aiH0 : AIResult :=
  { stage := "H0"
    confidence := 9 / 10
    lesionCount := 7
    avgLesionSize := 3
    explanation := "healthy"
    detectedSymptoms := none
    visualEvidenceRegions := none }

/-- A concrete classifier output: stage `N0` with non-zero lesion metrics. -/
def aiN0 : AIResult :=
  { stage := "N0"
    confidence := 8 / 10
    lesionCount := 5
    avgLesionSize := 2
    explanation := "not a leaf"
    detectedSymptoms := some ["spot"]
    visualEvidenceRegions := some "upper left" }

/-- A concrete structurally valid image sitting exactly at the resolution
thresholds (width = `W_MIN`, height = `H_MIN`). -/
def imgOk : RasterImage := ⟨300, 300, 3, List.replicate 270000 128⟩

/-- A small structurally valid 2 by 2 RGB image. -/
def imgSmall : RasterImage := ⟨2, 2, 3, List.replicate 12 128⟩

/-- The boundary image `imgOk` is structurally valid. -/
theorem imgOk_valid : structurallyValid imgOk := by
  refine ⟨by decide, by decide, ?_⟩
  show (List.replicate 270000 128).length = 300 * 300 * 3
  rw [List.length_replicate]

/-- A structurally valid image is assessed without error, producing the
report `mkQuality`. -/
theorem assess_ok_of_valid (img : RasterImage) (hv : structurallyValid img) :
    assess img = .ok (mkQuality img) := by
  have h : ¬(img.width = 0 ∨ img.height = 0 ∨
      img.pixels.length ≠ img.width * img.height * img.channels) := by
    push_neg
    exact hv
  unfold assess
  rw [if_neg h]

/-- Unfolding of `score` at stage `E1` for valid inputs. -/
theorem score_E1_eq (c : ℤ) (s : ℚ) (h0c : 0 ≤ c) (h0s : 0 ≤ s) :
    score "E1" c s = .ok (bandScore 1 25 10 5 c s) := by
  unfold score
  rw [if_neg (by push_neg; exact ⟨h0c, h0s⟩), if_neg (by decide), if_pos rfl]

/-- Unfolding of `score` at stage `E2` for valid inputs. -/
theorem score_E2_eq (c : ℤ) (s : ℚ) (h0c : 0 ≤ c) (h0s : 0 ≤ s) :
    score "E2" c s = .ok (bandScore 26 60 30 10 c s) := by
  unfold score
  rw [if_neg (by push_neg; exact ⟨h0c, h0s⟩), if_neg (by decide), if_neg (by decide),
    if_pos rfl]

/-- Unfolding of `score` at stage `E3` for valid inputs. -/
theorem score_E3_eq (c : ℤ) (s : ℚ) (h0c : 0 ≤ c) (h0s : 0 ≤ s) :
    score "E3" c s = .ok (bandScore 61 100 50 20 c s) := by
  unfold score
  rw [if_neg (by push_neg; exact ⟨h0c, h0s⟩), if_neg (by decide), if_neg (by decide),
    if_neg (by decide), if_pos rfl]

/-- C2: for every non-negative lesion count and average lesion size
(including non-zero values such as 50 and 20), the score at stage `H0`
and at stage `N0` is 0 — the lesion inputs are ignored. -/
theorem score_zero_for_H0_N0 (lesionCount : ℤ) (avgLesionSize : ℚ)
    (h0c : 0 ≤ lesionCount) (h0s : 0 ≤ avgLesionSize) :
    score "H0" lesionCount avgLesionSize = .ok 0 ∧
    score "N0" lesionCount avgLesionSize = .ok 0 := by
  have hv : ¬(lesionCount < 0 ∨ avgLesionSize < 0) := by
    push_neg
    exact ⟨h0c, h0s⟩
  constructor
  · unfold score
    rw [if_neg hv, if_pos (Or.inl rfl)]
  · unfold score
    rw [if_neg hv, if_pos (Or.inr rfl)]

/-- Witness for C2 at the spec's example inputs (50 lesions of average
size 20). -/
theorem score_zero_for_H0_N0_witness :
    score "H0" 50 20 = .ok 0 ∧ score "N0" 50 20 = .ok 0 :=
  score_zero_for_H0_N0 50 20 (by decide) (by decide)

/-- C3: severity bands never overlap — for all valid (non-negative)
lesion inputs, every `E1` score is at most every `E2` score, every `E2`
score is at most every `E3` score, and every band score is at least the
`H0`/`N0` score of 0. -/
theorem score_bands_ordered (c1 c2 c3 : ℤ) (s1 s2 s3 : ℚ)
    (h1c : 0 ≤ c1) (h1s : 0 ≤ s1) (h2c : 0 ≤ c2) (h2s : 0 ≤ s2)
    (h3c : 0 ≤ c3) (h3s : 0 ≤ s3) (v1 v2 v3 : ℤ)
    (e1 : score "E1" c1 s1 = .ok v1)
    (e2 : score "E2" c2 s2 = .ok v2)
    (e3 : score "E3" c3 s3 = .ok v3) :
    0 ≤ v1 ∧ v1 ≤ v2 ∧ v2 ≤ v3 := by
  rw [score_E1_eq c1 s1 h1c h1s] at e1
  rw [score_E2_eq c2 s2 h2c h2s] at e2
  rw [score_E3_eq c3 s3 h3c h3s] at e3
  simp only [Except.ok.injEq] at e1 e2 e3
  subst e1
  subst e2
  subst e3
  have l1 : (1 : ℤ) ≤ bandScore 1 25 10 5 c1 s1 :=
    bandScore_lower (by norm_num) (by norm_num) (by norm_num) h1c h1s
  have u1 : bandScore 1 25 10 5 c1 s1 ≤ 25 :=
    bandScore_upper (by norm_num) (by norm_num) (by norm_num) c1 s1
  have l2 : (26 : ℤ) ≤ bandScore 26 60 30 10 c2 s2 :=
    bandScore_lower (by norm_num) (by norm_num) (by norm_num) h2c h2s
  have u2 : bandScore 26 60 30 10 c2 s2 ≤ 60 :=
    bandScore_upper (by norm_num) (by norm_num) (by norm_num) c2 s2
  have l3 : (61 : ℤ) ≤ bandScore 61 100 50 20 c3 s3 :=
    bandScore_lower (by norm_num) (by norm_num) (by norm_num) h3c h3s
  exact ⟨by omega, by omega, by omega⟩

/-- Witness for C3 at lesion count 5 and average lesion size 3 in each
band. -/
theorem score_bands_ordered_witness :
    score "E1" 5 3 = .ok (bandScore 1 25 10 5 5 3) ∧
    score "E2" 5 3 = .ok (bandScore 26 60 30 10 5 3) ∧
    score "E3" 5 3 = .ok (bandScore 61 100 50 20 5 3) ∧
    0 ≤ bandScore 1 25 10 5 5 3 ∧
    bandScore 1 25 10 5 5 3 ≤ bandScore 26 60 30 10 5 3 ∧
    bandScore 26 60 30 10 5 3 ≤ bandScore 61 100 50 20 5 3 := by
  have h := score_bands_ordered 5 5 5 3 3 3 (by decide) (by decide) (by decide)
    (by decide) (by decide) (by decide) _ _ _ rfl rfl rfl
  exact ⟨rfl, rfl, rfl, h.1, h.2.1, h.2.2⟩

/-- C4: for a fixed stage among `E1`, `E2`, `E3`, the score is monotone
non-decreasing in both the lesion count and the average lesion size
(all inputs non-negative). -/
theorem score_monotone_within_stage (stage : String)
    (hstage : stage = "E1" ∨ stage = "E2" ∨ stage = "E3")
    (c1 c2 : ℤ) (s1 s2 : ℚ) (h0c : 0 ≤ c1) (h0s : 0 ≤ s1)
    (hcc : c1 ≤ c2) (hss : s1 ≤ s2) (v1 v2 : ℤ)
    (e1 : score stage c1 s1 = .ok v1) (e2 : score stage c2 s2 = .ok v2) :
    v1 ≤ v2 := by
  have h0c2 : 0 ≤ c2 := le_trans h0c hcc
  have h0s2 : 0 ≤ s2 := le_trans h0s hss
  rcases hstage with h | h | h <;> subst h
  · rw [score_E1_eq c1 s1 h0c h0s] at e1
    rw [score_E1_eq c2 s2 h0c2 h0s2] at e2
    simp only [Except.ok.injEq] at e1 e2
    subst e1
    subst e2
    exact bandScore_mono (by norm_num) (by norm_num) (by norm_num) hcc hss
  · rw [score_E2_eq c1 s1 h0c h0s] at e1
    rw [score_E2_eq c2 s2 h0c2 h0s2] at e2
    simp only [Except.ok.injEq] at e1 e2
    subst e1
    subst e2
    exact bandScore_mono (by norm_num) (by norm_num) (by norm_num) hcc hss
  · rw [score_E3_eq c1 s1 h0c h0s] at e1
    rw [score_E3_eq c2 s2 h0c2 h0s2] at e2
    simp only [Except.ok.injEq] at e1 e2
    subst e1
    subst e2
    exact bandScore_mono (by norm_num) (by norm_num) (by norm_num) hcc hss

/-- Witness for C4 at stage `E2`, from inputs (5, 3) to (10, 8). -/
theorem score_monotone_within_stage_witness :
    score "E2" 5 3 = .ok (bandScore 26 60 30 10 5 3) ∧
    score "E2" 10 8 = .ok (bandScore 26 60 30 10 10 8) ∧
    bandScore 26 60 30 10 5 3 ≤ bandScore 26 60 30 10 10 8 := by
  refine ⟨rfl, rfl, ?_⟩
  exact score_monotone_within_stage "E2" (Or.inr (Or.inl rfl)) 5 10 3 8
    (by decide) (by decide) (by decide) (by decide) _ _ rfl rfl

/-- C6: the scorer fails with `InvalidInput` exactly when the lesion
count or average lesion size is negative or the stage lies outside the
closed enumeration — negative inputs are rejected, never clamped. -/
theorem score_invalid_input_iff (stage : String) (lesionCount : ℤ)
    (avgLesionSize : ℚ) :
    score stage lesionCount avgLesionSize = .error .InvalidInput ↔
      (lesionCount < 0 ∨ avgLesionSize < 0 ∨ stage ∉ stageValues) := by
  unfold score
  split_ifs with h1 h2 h3 h4 h5
  · refine iff_of_true rfl ?_
    rcases h1 with h | h
    · exact Or.inl h
    · exact Or.inr (Or.inl h)
  · refine iff_of_false (by simp) ?_
    push_neg at h1
    rintro (h | h | h)
    · exact absurd h (not_lt.mpr h1.1)
    · exact absurd h (not_lt.mpr h1.2)
    · refine h ?_
      rcases h2 with h2 | h2 <;> subst h2 <;> simp [stageValues]
  · refine iff_of_false (by simp) ?_
    push_neg at h1
    rintro (h | h | h)
    · exact absurd h (not_lt.mpr h1.1)
    · exact absurd h (not_lt.mpr h1.2)
    · subst h3
      exact h (by simp [stageValues])
  · refine iff_of_false (by simp) ?_
    push_neg at h1
    rintro (h | h | h)
    · exact absurd h (not_lt.mpr h1.1)
    · exact absurd h (not_lt.mpr h1.2)
    · subst h4
      exact h (by simp [stageValues])
  · refine iff_of_false (by simp) ?_
    push_neg at h1
    rintro (h | h | h)
    · exact absurd h (not_lt.mpr h1.1)
    · exact absurd h (not_lt.mpr h1.2)
    · subst h5
      exact h (by simp [stageValues])
  · refine iff_of_true rfl ?_
    push_neg at h2
    refine Or.inr (Or.inr ?_)
    simp only [stageValues, List.mem_cons, List.not_mem_nil, or_false]
    push_neg
    exact ⟨h2.1, h3, h4, h5, h2.2⟩

/-- C5: `assess` fails with `InvalidImage` exactly when the width is
zero, the height is zero, or the pixel buffer length does not match
width times height times channel count; every structurally valid image
yields a quality report, however poor its flags. -/
theorem assess_invalid_iff (img : RasterImage) :
    (assess img = .error .InvalidImage ↔
      (img.width = 0 ∨ img.height = 0 ∨
        img.pixels.length ≠ img.width * img.height * img.channels)) ∧
    (structurallyValid img → ∃ q, assess img = .ok q) := by
  constructor
  · unfold assess
    split_ifs with h
    · exact iff_of_true rfl h
    · exact iff_of_false (by simp) h
  · intro hv
    rcases hv with ⟨h1, h2, h3⟩
    unfold assess
    rw [if_neg ?_]
    · exact ⟨_, rfl⟩
    · push_neg
      exact ⟨h1, h2, h3⟩

/-- Witness for C5: a structurally valid 2 by 2 RGB image is assessed
without error. -/
theorem assess_invalid_iff_witness : ∃ q, assess imgSmall = .ok q :=
  (assess_invalid_iff imgSmall).2 (by decide)

/-- C7: for every structurally valid image, the `isLowRes` flag of the
report is true exactly when the width is below `W_MIN` or the height is
below `H_MIN`; a dimension exactly at the threshold is not low
resolution. -/
theorem isLowRes_iff_below_min (img : RasterImage) (q : ImageQuality)
    (h : assess img = .ok q) :
    q.isLowRes = true ↔ (img.width < W_MIN ∨ img.height < H_MIN) := by
  by_cases hcond : img.width = 0 ∨ img.height = 0 ∨
      img.pixels.length ≠ img.width * img.height * img.channels
  · unfold assess at h
    rw [if_pos hcond] at h
    exact Except.noConfusion h
  · unfold assess at h
    rw [if_neg hcond] at h
    simp only [Except.ok.injEq] at h
    subst h
    simp [mkQuality]

/-- Witness for C7 at the boundary image `imgOk`, whose dimensions equal
`W_MIN` and `H_MIN` exactly. -/
theorem isLowRes_iff_below_min_witness :
    assess imgOk = .ok (mkQuality imgOk) ∧
    ((mkQuality imgOk).isLowRes = true ↔
      (imgOk.width < W_MIN ∨ imgOk.height < H_MIN)) := by
  have h : assess imgOk = .ok (mkQuality imgOk) := assess_ok_of_valid imgOk imgOk_valid
  exact ⟨h, isLowRes_iff_below_min imgOk (mkQuality imgOk) h⟩

/-- C1: whenever the assembled result record carries stage `H0` or `N0`,
its `lesionCount` and `avgLesionSize` fields are zero, whatever lesion
metrics the classifier reported. -/
theorem assembled_lesion_fields_zero (db : String → DiseaseInfo)
    (quality : ImageQuality) (aiResult : AIResult) (timestamp : String)
    (r : AnalysisResult)
    (h : runAnalysis db quality aiResult timestamp = some r)
    (hr : r.stage = "H0" ∨ r.stage = "N0") :
    r.lesionCount = 0 ∧ r.avgLesionSize = 0 := by
  unfold runAnalysis at h
  cases hc : calculateSeverity aiResult.stage aiResult.lesionCount
      aiResult.avgLesionSize with
  | error e =>
    rw [hc] at h
    exact absurd h (by simp)
  | ok sv =>
    rw [hc] at h
    simp only [Option.some.injEq] at h
    subst h
    simp only at hr ⊢
    rcases hr with hst | hst <;> rw [hst] <;> simp

/-- Witness for C1: classifier output `aiH0` reports stage `H0` with 7
lesions of average size 3, yet the assembled record stores zeros. -/
theorem assembled_lesion_fields_zero_witness :
    ∃ r, runAnalysis dbTest qTest aiH0 "ts" = some r ∧
      r.lesionCount = 0 ∧ r.avgLesionSize = 0 :=
  ⟨_, rfl, assembled_lesion_fields_zero dbTest qTest aiH0 "ts" _ rfl (Or.inl rfl)⟩

/-- C9: the stored `severityScore` is computed by `calculateSeverity` on
the classifier's raw lesion metrics, before the `H0`/`N0` zero-forcing is
applied to the stored fields: for stage `H0` or `N0` the scorer receives
the raw (possibly non-zero) values while the record's fields are zero. -/
theorem severityScore_from_raw_metrics (db : String → DiseaseInfo)
    (quality : ImageQuality) (aiResult : AIResult) (timestamp : String)
    (r : AnalysisResult)
    (hstage : aiResult.stage = "H0" ∨ aiResult.stage = "N0")
    (h : runAnalysis db quality aiResult timestamp = some r) :
    calculateSeverity aiResult.stage aiResult.lesionCount
        aiResult.avgLesionSize = .ok r.severityScore ∧
      r.lesionCount = 0 ∧ r.avgLesionSize = 0 := by
  unfold runAnalysis at h
  cases hc : calculateSeverity aiResult.stage aiResult.lesionCount
      aiResult.avgLesionSize with
  | error e =>
    rw [hc] at h
    exact absurd h (by simp)
  | ok sv =>
    rw [hc] at h
    simp only [Option.some.injEq] at h
    subst h
    refine ⟨rfl, ?_⟩
    rcases hstage with hst | hst <;> rw [hst] <;> simp

/-- Witness for C9: `aiN0` reports stage `N0` with 5 lesions of average
size 2; the scorer is fed those raw values while the record stores
zeros. -/
theorem severityScore_from_raw_metrics_witness :
    ∃ r, runAnalysis dbTest qTest aiN0 "ts" = some r ∧
      calculateSeverity aiN0.stage aiN0.lesionCount aiN0.avgLesionSize =
        .ok r.severityScore ∧
      r.lesionCount = 0 ∧ r.avgLesionSize = 0 :=
  ⟨_, rfl, severityScore_from_raw_metrics dbTest qTest aiN0 "ts" _
    (Or.inr rfl) rfl⟩

/-- C10: the assembled record's `qualityIssues` is `none` exactly when
all four flags `isTooDark`, `hasShadows`, `isLowRes`, `hasOverexposure`
are false; when present it records exactly those four flag values. -/
theorem qualityIssues_none_iff (db : String → DiseaseInfo)
    (quality : ImageQuality) (aiResult : AIResult) (timestamp : String)
    (r : AnalysisResult)
    (h : runAnalysis db quality aiResult timestamp = some r) :
    (r.qualityIssues = none ↔
      (quality.isTooDark = false ∧ quality.hasShadows = false ∧
        quality.isLowRes = false ∧ quality.hasOverexposure = false)) ∧
    (∀ iss, r.qualityIssues = some iss →
      iss.tooDark = quality.isTooDark ∧ iss.shadows = quality.hasShadows ∧
        iss.lowRes = quality.isLowRes ∧
        iss.overexposed = quality.hasOverexposure) := by
  unfold runAnalysis at h
  cases hc : calculateSeverity aiResult.stage aiResult.lesionCount
      aiResult.avgLesionSize with
  | error e =>
    rw [hc] at h
    exact absurd h (by simp)
  | ok sv =>
    rw [hc] at h
    simp only [Option.some.injEq] at h
    subst h
    constructor
    · simp only
      split_ifs with hq
      · refine iff_of_false (by simp) ?_
        simp only [Bool.or_eq_true] at hq
        rintro ⟨hd, hs, hl, ho⟩
        rcases hq with ((hq | hq) | hq) | hq <;> simp_all
      · refine iff_of_true rfl ?_
        simp only [Bool.or_eq_true, not_or, Bool.not_eq_true] at hq
        exact ⟨hq.1.1.1, hq.1.1.2, hq.1.2, hq.2⟩
    · intro iss hiss
      simp only at hiss
      split_ifs at hiss with hq
      · simp only [Option.some.injEq] at hiss
        subst hiss
        exact ⟨rfl, rfl, rfl, rfl⟩

/-- Witness for C10: with `qTest` (only `hasShadows` raised) the record
carries a non-null `qualityIssues` copying the four flags. -/
theorem qualityIssues_none_iff_witness :
    ∃ r, runAnalysis dbTest qTest aiH0 "ts" = some r ∧
      (r.qualityIssues = none ↔
        (qTest.isTooDark = false ∧ qTest.hasShadows = false ∧
          qTest.isLowRes = false ∧ qTest.hasOverexposure = false)) ∧
      (∀ iss, r.qualityIssues = some iss →
        iss.tooDark = qTest.isTooDark ∧ iss.shadows = qTest.hasShadows ∧
          iss.lowRes = qTest.isLowRes ∧
          iss.overexposed = qTest.hasOverexposure) :=
  ⟨_, rfl, (qualityIssues_none_iff dbTest qTest aiH0 "ts" _ rfl).1,
    (qualityIssues_none_iff dbTest qTest aiH0 "ts" _ rfl).2⟩

/-- C8: `saveToHistory` places the new item at the front of the history
and the stored list never exceeds 50 entries — the update equals the new
item followed by the prior items, truncated to the cap. -/
theorem saveToHistory_front_and_capped (id : String) (res : AnalysisResult)
    (history : List HistoryItem) :
    saveToHistory id res history = mkHistoryItem id res :: history.take 49 ∧
    (saveToHistory id res history).length ≤ 50 := by
  constructor
  · unfold saveToHistory
    exact List.take_succ_cons
  · unfold saveToHistory
    exact List.length_take_le 50 (mkHistoryItem id res :: history)

end PhytoScan
